import Mathlib

/-!
Verification of the hospital-chatbot repository (two Flask apps:
`ChatBot.py`, the offline rule-based variant, and `NewAiChatBot.py`, the
variant delegating to an external completion service).

The embedding models the JSON values a handler receives, the Python dict,
list and string operations the handlers perform (with their exception
behaviour made explicit in an `Except` monad), and both `/api/chat`
handlers.  The delegated handler is parameterised by the upstream
completion call, modelled as a function that may raise.
-/

/-- JSON values, as produced by Flask's `request.get_json(force=True)`. -/
inductive Json where
  | null
  | bool (b : Bool)
  | num (n : Int)
  | str (s : String)
  | arr (xs : List Json)
  | obj (fields : List (String × Json))

/-- Python exceptions that the modelled operations can raise.  `raised msg`
stands for any other exception carrying message `msg` (for example one
raised by the upstream SDK call); `message` below models `str(e)`.  For the
built-in exceptions the interpreter's exact text depends on the operands;
a representative text is used, and no claim depends on it. -/
inductive PyErr where
  | indexError
  | keyError
  | typeError
  | attributeError
  | raised (msg : String)

/-- Models Python `str(e)` on the exceptions above. -/
def PyErr.message : PyErr → String
  | .indexError => "list index out of range"
  | .keyError => "-1"
  | .typeError => "object is not subscriptable"
  | .attributeError => "object has no attribute"
  | .raised m => m

/-- First-match association lookup, as in a Python dict built from these
fields (the handlers only read; duplicate keys do not arise). -/
def lookupField : List (String × Json) → String → Option Json
  | [], _ => none
  | (k, v) :: rest, key => if k = key then some v else lookupField rest key

/-- Models Python `d.get(key, default)`: on a dict, the value or the
default; on any non-dict value, `.get` does not exist, so AttributeError. -/
def pyDictGet (d : Json) (key : String) (dflt : Json) : Except PyErr Json :=
  match d with
  | Json.obj fields => .ok ((lookupField fields key).getD dflt)
  | _ => .error PyErr.attributeError

/-- Models Python `v[-1]`: last element of a list (IndexError when empty),
last character of a string (IndexError when empty), KeyError on a dict
whose keys are strings, TypeError on anything not subscriptable. -/
def pyIndexLast (v : Json) : Except PyErr Json :=
  match v with
  | Json.arr xs =>
    match xs.getLast? with
    | some x => .ok x
    | none => .error PyErr.indexError
  | Json.str s =>
    match s.data.getLast? with
    | some c => .ok (Json.str (String.mk [c]))
    | none => .error PyErr.indexError
  | Json.obj _ => .error PyErr.keyError
  | _ => .error PyErr.typeError

/-- Models using a JSON value where a Python `str` is required (the first
thing done with it is `.lower()`, which a non-string lacks). -/
def pyAsStr (v : Json) : Except PyErr String :=
  match v with
  | Json.str s => .ok s
  | _ => .error PyErr.attributeError

/-- Models matching a prefix: `headMatch p l` is true when `l` starts
with `p`. -/
def headMatch : List Char → List Char → Bool
  | [], _ => true
  | _ :: _, [] => false
  | p :: ps, c :: cs => p == c && headMatch ps cs

/-- Models occurrence of `pat` as a contiguous run inside `l`. -/
def occursIn (pat : List Char) : List Char → Bool
  | [] => headMatch pat []
  | c :: cs => headMatch pat (c :: cs) || occursIn pat cs

/-- Models the Python substring test `pat in hay`. -/
def pyContains (hay pat : String) : Bool := occursIn pat.data hay.data

/-- Models Python `s.lower()` (character-wise case folding; every trigger
string in the rule table is ASCII). -/
def pyLower (s : String) : String := String.mk (s.data.map Char.toLower)

/-- Whitespace as stripped by Python `str.strip()`. -/
def pyIsSpace (c : Char) : Bool :=
  c == ' ' || c == '\t' || c == '\n' || c == '\r' || c == '\x0b' || c == '\x0c'

/-- Models Python `s.strip()`: remove leading and trailing whitespace. -/
def pyStrip (s : String) : String :=
  String.mk (((s.data.dropWhile pyIsSpace).reverse.dropWhile pyIsSpace).reverse)

namespace ChatBot

/-- Reply of the appointment rule in `hospital_bot`. -/
def appointmentReply : String :=
  "📅 You can book an appointment by calling our reception at +91-1234567890."

/-- Reply of the visiting-hours rule in `hospital_bot`. -/
def visitingReply : String :=
  "🕙 Visiting hours are 10 AM - 1 PM and 5 PM - 7 PM daily."

/-- Reply of the emergency rule in `hospital_bot`. -/
def emergencyReply : String :=
  "⚠️ This seems urgent. Please call 108 or go to the nearest emergency room immediately."

/-- Reply of the department rule in `hospital_bot`. -/
def departmentReply : String :=
  "🏥 We have Cardiology, Neurology, Pediatrics, and General Medicine departments."

/-- Reply of the greeting rule in `hospital_bot`. -/
def greetingReply : String :=
  "Hello 👋 I’m your hospital assistant bot. How can I help you today?"

/-- Fallback menu reply of `hospital_bot`. -/
def fallbackReply : String :=
  "I can help with appointments, visiting hours, departments, and emergencies."

/-- Embedding of `hospital_bot` from `ChatBot.py`.  The source assigns
`user_input = user_input.lower()` once and then runs the if/elif chain;
the lowering is inlined here as `pyLower user_input`. -/
def hospital_bot (user_input : String) : String :=
  if pyContains (pyLower user_input) "appointment" then appointmentReply
  else if pyContains (pyLower user_input) "visiting hours"
      || pyContains (pyLower user_input) "visit time" then visitingReply
  else if pyContains (pyLower user_input) "emergency"
      || pyContains (pyLower user_input) "chest pain" then emergencyReply
  else if pyContains (pyLower user_input) "department"
      || pyContains (pyLower user_input) "doctor" then departmentReply
  else if pyContains (pyLower user_input) "hello"
      || pyContains (pyLower user_input) "hi" then greetingReply
  else fallbackReply

/-- Embedding of `chat_api` from `ChatBot.py`:
`user_msg = data.get("messages", [])[-1].get("content", "")` followed by
`hospital_bot(user_msg)` (whose first step, `.lower()`, needs a string),
then `jsonify({"reply": reply})`, a 200 response.  Any exception escapes
the handler unhandled, modelled as `.error`. -/
def chat_api (data : Json) : Except PyErr (Nat × Json) :=
  match pyDictGet data "messages" (Json.arr []) with
  | .error e => .error e
  | .ok msgs =>
    match pyIndexLast msgs with
    | .error e => .error e
    | .ok lastMsg =>
      match pyDictGet lastMsg "content" (Json.str "") with
      | .error e => .error e
      | .ok contentVal =>
        match pyAsStr contentVal with
        | .error e => .error e
        | .ok userMsg => .ok (200, Json.obj [("reply", Json.str (hospital_bot userMsg))])

end ChatBot

namespace NewAiChatBot

/-- Chat-style message as submitted to the upstream service: the handler
builds dicts with exactly the keys `role` and `content`, whose values are
whatever JSON values the caller supplied (or the defaults). -/
structure Msg where
  role : Json
  content : Json

/-- The fixed system instruction `SYSTEM_PROMPT` from `NewAiChatBot.py`. -/
def SYSTEM_PROMPT : String :=
  "You are a helpful and polite hospital helpline assistant. Your job is to answer questions about hospital services, appointments, visiting hours, and departments. If the user describes a medical emergency, immediately tell them to call 108 or visit the nearest emergency room. Always remind users that you are not a doctor and cannot give professional medical advice."

/-- The system message prepended to every history. -/
def sysMsg : Msg := ⟨Json.str "system", Json.str SYSTEM_PROMPT⟩

/-- Embedding of the per-message normalisation in the list comprehension:
`{"role": m.get("role", "user"), "content": m.get("content", "")}`.
Python evaluates `m.get("role", ...)` first, so its exception wins. -/
def normalizeMsg (m : Json) : Except PyErr Msg :=
  match pyDictGet m "role" (Json.str "user"), pyDictGet m "content" (Json.str "") with
  | .error e, _ => .error e
  | .ok _, .error e => .error e
  | .ok r, .ok c => .ok ⟨r, c⟩

/-- Embedding of the list comprehension over `messages`: elements are
normalised in order and the first exception aborts the whole handler. -/
def mapNormalize : List Json → Except PyErr (List Msg)
  | [] => .ok []
  | m :: rest =>
    match normalizeMsg m with
    | .error e => .error e
    | .ok x =>
      match mapNormalize rest with
      | .error e => .error e
      | .ok xs => .ok (x :: xs)

/-- Embedding of
`history = [{"role": "system", "content": SYSTEM_PROMPT}] + [... for m in messages]`. -/
def buildHistory (ms : List Json) : Except PyErr (List Msg) :=
  match mapNormalize ms with
  | .error e => .error e
  | .ok us => .ok (sysMsg :: us)

/-- One content element of an upstream output item (`.text`). -/
structure ContentElem where
  text : String

/-- One upstream output item (`.content`). -/
structure OutputItem where
  content : List ContentElem

/-- Shape of the upstream `Responses` result used by the handler:
`resp.output_text` (the SDK's merged text, possibly empty) and
`resp.output`, the structured output items. -/
structure UResp where
  output_text : String
  output : List OutputItem

/-- The fixed placeholder the handler falls back to. -/
def noResponseText : String := "(No response text received.)"

/-- Embedding of the reply extraction:
`reply_text = getattr(resp, "output_text", "").strip()`; if that is empty,
try `resp.output[0].content[0].text` and on any exception (no output item,
no content element) use the placeholder.  A fallback text that is itself
empty is returned as is. -/
def extractReply (resp : UResp) : String :=
  if pyStrip resp.output_text = "" then
    match resp.output with
    | [] => noResponseText
    | item :: _ =>
      match item.content with
      | [] => noResponseText
      | c :: _ => c.text
  else pyStrip resp.output_text

/-- Models `isinstance(messages, list)`. -/
def isList : Json → Bool
  | Json.arr _ => true
  | _ => false

/-- Embedding of the `try:` body of `chat_api` in `NewAiChatBot.py`, after
JSON parsing.  The upstream call `client.responses.create(...)` is the
parameter `upstream`; it receives the built history and may raise.
A non-list `messages` value returns early with status 400. -/
def tryBody (upstream : List Msg → Except PyErr UResp) (data : Json) :
    Except PyErr (Nat × Json) :=
  match pyDictGet data "messages" (Json.arr []) with
  | .error e => .error e
  | .ok (Json.arr ms) =>
    match buildHistory ms with
    | .error e => .error e
    | .ok hist =>
      match upstream hist with
      | .error e => .error e
      | .ok resp => .ok (200, Json.obj [("reply", Json.str (extractReply resp))])
  | .ok _ => .ok (400, Json.obj [("error", Json.str "messages must be a list")])

/-- Embedding of `chat_api` from `NewAiChatBot.py`: the `try/except`
wrapper turns any exception `e` into `jsonify({"error": str(e)}), 500`. -/
def chat_api (upstream : List Msg → Except PyErr UResp) (data : Json) : Nat × Json :=
  match tryBody upstream data with
  | .ok r => r
  | .error e => (500, Json.obj [("error", Json.str (PyErr.message e))])

end NewAiChatBot

/-! Helper lemmas about the substring model. -/

theorem headMatch_true_iff (p : List Char) :
    ∀ l : List Char, headMatch p l = true ↔ ∃ post, l = p ++ post := by
  induction p with
  | nil =>
    intro l
    simp [headMatch]
  | cons a as ih =>
    intro l
    cases l with
    | nil =>
      simp [headMatch]
    | cons b bs =>
      simp only [headMatch, Bool.and_eq_true, beq_iff_eq, ih, List.cons_append,
        List.cons.injEq]
      constructor
      · rintro ⟨rfl, post, rfl⟩
        exact ⟨post, rfl, rfl⟩
      · rintro ⟨post, rfl, rfl⟩
        exact ⟨rfl, post, rfl⟩

theorem occursIn_true_iff (p : List Char) :
    ∀ l : List Char, occursIn p l = true ↔ ∃ pre post, l = pre ++ p ++ post := by
  intro l
  induction l with
  | nil =>
    simp only [occursIn, headMatch_true_iff]
    constructor
    · rintro ⟨post, h⟩
      exact ⟨[], post, h⟩
    · rintro ⟨pre, post, h⟩
      rw [List.nil_eq, List.append_assoc, List.append_eq_nil] at h
      exact ⟨post, by simp [h.1, h.2]⟩
  | cons c cs ih =>
    simp only [occursIn, Bool.or_eq_true, headMatch_true_iff, ih]
    constructor
    · rintro (⟨post, h⟩ | ⟨pre, post, h⟩)
      · exact ⟨[], post, by simpa using h⟩
      · exact ⟨c :: pre, post, by simp [h]⟩
    · rintro ⟨pre, post, h⟩
      cases pre with
      | nil =>
        exact Or.inl ⟨post, by simpa using h⟩
      | cons c2 pre2 =>
        simp only [List.cons_append, List.cons.injEq] at h
        exact Or.inr ⟨pre2, post, h.2⟩

theorem occursIn_map (f : Char → Char) (p l : List Char)
    (h : occursIn p l = true) : occursIn (p.map f) (l.map f) = true := by
  rw [occursIn_true_iff] at h ⊢
  obtain ⟨pre, post, rfl⟩ := h
  exact ⟨pre.map f, post.map f, by simp⟩

theorem pyContains_lower (s t : String) (h : pyContains s t = true) :
    pyContains (pyLower s) (pyLower t) = true :=
  occursIn_map Char.toLower t.data s.data h

/-! Helper lemmas about the message normalisation. -/

theorem mapNormalize_length :
    ∀ (ms : List Json) (us : List NewAiChatBot.Msg),
      NewAiChatBot.mapNormalize ms = .ok us → us.length = ms.length := by
  intro ms
  induction ms with
  | nil =>
    intro us h
    simp only [NewAiChatBot.mapNormalize] at h
    cases h
    rfl
  | cons m rest ih =>
    intro us h
    simp only [NewAiChatBot.mapNormalize] at h
    cases h1 : NewAiChatBot.normalizeMsg m with
    | error e => rw [h1] at h; cases h
    | ok x =>
      rw [h1] at h
      cases h2 : NewAiChatBot.mapNormalize rest with
      | error e => rw [h2] at h; cases h
      | ok xs =>
        rw [h2] at h
        cases h
        simp [ih xs h2]

theorem mapNormalize_get :
    ∀ (ms : List Json) (us : List NewAiChatBot.Msg),
      NewAiChatBot.mapNormalize ms = .ok us →
      ∀ (i : Nat) (m : Json), ms.get? i = some m →
        ∃ x, NewAiChatBot.normalizeMsg m = .ok x ∧ us.get? i = some x := by
  intro ms
  induction ms with
  | nil =>
    intro us _ i m hm
    cases i <;> cases hm
  | cons m0 rest ih =>
    intro us h i m hm
    simp only [NewAiChatBot.mapNormalize] at h
    cases h1 : NewAiChatBot.normalizeMsg m0 with
    | error e => rw [h1] at h; cases h
    | ok x =>
      rw [h1] at h
      cases h2 : NewAiChatBot.mapNormalize rest with
      | error e => rw [h2] at h; cases h
      | ok xs =>
        rw [h2] at h
        cases h
        cases i with
        | zero =>
          cases hm
          exact ⟨x, h1, rfl⟩
        | succ j =>
          simp only [List.get?_cons_succ] at hm ⊢
          exact ih xs h2 j m hm

/-! Claim theorems. -/

/-- C2: every input containing the substring "appointment" in any letter
case makes the rule-based strategy return the appointment-booking reply,
regardless of other trigger substrings, because the appointment rule is
checked first in the fixed order appointment, visiting-hours, emergency,
department, greeting, fallback. -/
theorem claim2_appointment_first (userInput t : String)
    (h1 : pyContains userInput t = true)
    (h2 : pyLower t = "appointment") :
    ChatBot.hospital_bot userInput = ChatBot.appointmentReply := by
  have h3 : pyContains (pyLower userInput) "appointment" = true := by
    have h4 := pyContains_lower userInput t h1
    rwa [h2] at h4
  simp [ChatBot.hospital_bot, h3]

/-- Witness for C2: an input holding "APPOINTMENT" in upper case next to
another trigger ("visiting hours") still gets the appointment reply. -/
theorem claim2_appointment_first_witness :
    pyContains "Tell me visiting hours or book an APPOINTMENT" "APPOINTMENT" = true ∧
    pyLower "APPOINTMENT" = "appointment" ∧
    ChatBot.hospital_bot "Tell me visiting hours or book an APPOINTMENT" =
      ChatBot.appointmentReply :=
  ⟨by rfl, by rfl,
    claim2_appointment_first "Tell me visiting hours or book an APPOINTMENT" "APPOINTMENT"
      (by rfl) (by rfl)⟩

/-- C6: on "Hello, any chest pain protocol?" the rule-based strategy
returns the emergency reply, not the greeting reply, because the emergency
rule is checked before the greeting rule. -/
theorem claim6_chest_pain_over_greeting :
    ChatBot.hospital_bot "Hello, any chest pain protocol?" = ChatBot.emergencyReply ∧
    ChatBot.emergencyReply ≠ ChatBot.greetingReply :=
  ⟨by rfl, by decide⟩

/-- C7: on the empty string no rule matches and the rule-based strategy
returns the fallback menu reply. -/
theorem claim7_empty_input_fallback :
    ChatBot.hospital_bot "" = ChatBot.fallbackReply := by rfl

/-- C8: posting a body whose last message content is "visiting hours" to
the rule-based endpoint yields status 200 and exactly the visiting-hours
reply. -/
theorem claim8_visiting_hours_roundtrip :
    ChatBot.chat_api
        (Json.obj [("messages",
          Json.arr [Json.obj [("role", Json.str "user"), ("content", Json.str "visiting hours")]])]) =
      .ok (200, Json.obj [("reply", Json.str ChatBot.visitingReply)]) := by rfl

/-- C9: for every input the rule-based strategy returns one of exactly six
fixed reply strings. -/
theorem claim9_output_range (s : String) :
    ChatBot.hospital_bot s = ChatBot.appointmentReply ∨
    ChatBot.hospital_bot s = ChatBot.visitingReply ∨
    ChatBot.hospital_bot s = ChatBot.emergencyReply ∨
    ChatBot.hospital_bot s = ChatBot.departmentReply ∨
    ChatBot.hospital_bot s = ChatBot.greetingReply ∨
    ChatBot.hospital_bot s = ChatBot.fallbackReply := by
  unfold ChatBot.hospital_bot
  split_ifs <;> tauto

/-- C10: normalisation of a caller message object: a missing "role" key
defaults to "user", a missing "content" key defaults to "", and the result
is a Msg carrying exactly the looked-up role and content (any other key of
the object is dropped, since the result depends on nothing else). -/
theorem claim10_message_normalisation (fields : List (String × Json)) :
    NewAiChatBot.normalizeMsg (Json.obj fields) =
      .ok ⟨(lookupField fields "role").getD (Json.str "user"),
           (lookupField fields "content").getD (Json.str "")⟩ := by rfl

/-- C1 counterexample: posting a body with `messages: []` to the
rule-based endpoint does not produce a 400-class response; the handler
raises an unhandled IndexError (the claim asserted a 400-class error in
both variants). -/
theorem claim1_counterexample :
    ChatBot.chat_api (Json.obj [("messages", Json.arr [])]) = .error PyErr.indexError := by rfl

/-- C1 amended: only the delegated variant validates, and only the
non-list shape: a present-but-non-list `messages` gets status 400 with an
error body there; the rule-based handler has no validation and raises an
unhandled IndexError when `messages` is empty or absent; the delegated
handler treats absent `messages` as an empty history and proceeds to the
upstream call, answering 200. -/
theorem claim1_validation_amended
    (upstream1 : List NewAiChatBot.Msg → Except PyErr NewAiChatBot.UResp)
    (v : Json) (hv : NewAiChatBot.isList v = false)
    (upstream2 : List NewAiChatBot.Msg → Except PyErr NewAiChatBot.UResp)
    (r : NewAiChatBot.UResp) (hr : upstream2 [NewAiChatBot.sysMsg] = .ok r) :
    NewAiChatBot.chat_api upstream1 (Json.obj [("messages", v)]) =
      (400, Json.obj [("error", Json.str "messages must be a list")]) ∧
    ChatBot.chat_api (Json.obj [("messages", Json.arr [])]) = .error PyErr.indexError ∧
    ChatBot.chat_api (Json.obj []) = .error PyErr.indexError ∧
    NewAiChatBot.chat_api upstream2 (Json.obj []) =
      (200, Json.obj [("reply", Json.str (NewAiChatBot.extractReply r))]) := by
  refine ⟨?_, by rfl, by rfl, ?_⟩
  · cases v <;>
      simp_all [NewAiChatBot.chat_api, NewAiChatBot.tryBody, pyDictGet, lookupField,
        NewAiChatBot.isList]
  · simp [NewAiChatBot.chat_api, NewAiChatBot.tryBody, pyDictGet, lookupField,
      NewAiChatBot.buildHistory, NewAiChatBot.mapNormalize, hr]

/-- Witness for the amended C1, at `messages = "nope"` (a non-list) for
the delegated variant and a trivial upstream. -/
theorem claim1_validation_amended_witness :
    NewAiChatBot.isList (Json.str "nope") = false ∧
    (fun _ : List NewAiChatBot.Msg =>
        (.ok ⟨"hello from upstream", []⟩ : Except PyErr NewAiChatBot.UResp))
        [NewAiChatBot.sysMsg] = .ok ⟨"hello from upstream", []⟩ ∧
    (NewAiChatBot.chat_api (fun _ => .ok ⟨"unused", []⟩) (Json.obj [("messages", Json.str "nope")]) =
      (400, Json.obj [("error", Json.str "messages must be a list")]) ∧
    ChatBot.chat_api (Json.obj [("messages", Json.arr [])]) = .error PyErr.indexError ∧
    ChatBot.chat_api (Json.obj []) = .error PyErr.indexError ∧
    NewAiChatBot.chat_api (fun _ => .ok ⟨"hello from upstream", []⟩) (Json.obj []) =
      (200, Json.obj [("reply",
        Json.str (NewAiChatBot.extractReply ⟨"hello from upstream", []⟩))])) :=
  ⟨by rfl, by rfl,
    claim1_validation_amended (fun _ => .ok ⟨"unused", []⟩) (Json.str "nope") (by rfl)
      (fun _ => .ok ⟨"hello from upstream", []⟩) ⟨"hello from upstream", []⟩ (by rfl)⟩

/-- C3: in the delegated variant, whenever the upstream call raises, the
endpoint returns status 500 with a JSON body whose `error` field is the
failure's message; the fault never escapes the handler. -/
theorem claim3_upstream_error_isolated
    (upstream : List NewAiChatBot.Msg → Except PyErr NewAiChatBot.UResp)
    (data : Json) (ms : List Json) (hist : List NewAiChatBot.Msg) (e : PyErr)
    (h1 : pyDictGet data "messages" (Json.arr []) = .ok (Json.arr ms))
    (h2 : NewAiChatBot.buildHistory ms = .ok hist)
    (h3 : upstream hist = .error e) :
    NewAiChatBot.chat_api upstream data =
      (500, Json.obj [("error", Json.str (PyErr.message e))]) := by
  simp [NewAiChatBot.chat_api, NewAiChatBot.tryBody, h1, h2, h3]

/-- Witness for C3: an upstream that raises with message "boom". -/
theorem claim3_upstream_error_isolated_witness :
    pyDictGet (Json.obj [("messages", Json.arr [])]) "messages" (Json.arr []) =
      .ok (Json.arr []) ∧
    NewAiChatBot.buildHistory [] = .ok [NewAiChatBot.sysMsg] ∧
    (fun _ : List NewAiChatBot.Msg =>
        (.error (PyErr.raised "boom") : Except PyErr NewAiChatBot.UResp))
        [NewAiChatBot.sysMsg] = .error (PyErr.raised "boom") ∧
    NewAiChatBot.chat_api (fun _ => .error (PyErr.raised "boom"))
        (Json.obj [("messages", Json.arr [])]) =
      (500, Json.obj [("error", Json.str "boom")]) :=
  ⟨by rfl, by rfl, by rfl,
    claim3_upstream_error_isolated (fun _ => .error (PyErr.raised "boom"))
      (Json.obj [("messages", Json.arr [])]) [] [NewAiChatBot.sysMsg]
      (PyErr.raised "boom") (by rfl) (by rfl) (by rfl)⟩

/-- C4 counterexample: when `output_text` is empty and the fallback path
succeeds but yields the empty string, the reply is that empty string, not
the placeholder (the claim asserted the placeholder whenever both are
empty). -/
theorem claim4_counterexample :
    NewAiChatBot.chat_api (fun _ => .ok ⟨"", [⟨[⟨""⟩]⟩]⟩)
        (Json.obj [("messages", Json.arr [])]) =
      (200, Json.obj [("reply", Json.str "")]) ∧
    ("" : String) ≠ NewAiChatBot.noResponseText :=
  ⟨by rfl, by decide⟩

/-- C4 amended: when `output_text` strips to empty and the fallback
extraction raises (there is no output item, or the first item has no
content element), the reply is exactly the placeholder
"(No response text received.)" and the request still answers 200; a
fallback extraction that succeeds with empty text is returned as is. -/
theorem claim4_placeholder_amended
    (resp : NewAiChatBot.UResp) (ms : List Json) (us : List NewAiChatBot.Msg)
    (hmap : NewAiChatBot.mapNormalize ms = .ok us)
    (hempty : pyStrip resp.output_text = "")
    (hfb : resp.output = [] ∨
      ∃ item rest, resp.output = item :: rest ∧ item.content = []) :
    NewAiChatBot.chat_api (fun _ => .ok resp) (Json.obj [("messages", Json.arr ms)]) =
      (200, Json.obj [("reply", Json.str NewAiChatBot.noResponseText)]) := by
  have hex : NewAiChatBot.extractReply resp = NewAiChatBot.noResponseText := by
    unfold NewAiChatBot.extractReply
    rw [hempty]
    rcases hfb with h | ⟨item, rest, hout, hcont⟩
    · simp [h]
    · simp [hout, hcont]
  simp [NewAiChatBot.chat_api, NewAiChatBot.tryBody, pyDictGet, lookupField,
    NewAiChatBot.buildHistory, hmap, hex]

/-- Witness for the amended C4: an upstream response with empty
`output_text` and no output items at all. -/
theorem claim4_placeholder_amended_witness :
    NewAiChatBot.mapNormalize [] = .ok [] ∧
    pyStrip (NewAiChatBot.UResp.output_text ⟨"", []⟩) = "" ∧
    (NewAiChatBot.UResp.output ⟨"", []⟩ = [] ∨
      ∃ item rest, NewAiChatBot.UResp.output ⟨"", []⟩ = item :: rest ∧
        NewAiChatBot.OutputItem.content item = []) ∧
    NewAiChatBot.chat_api (fun _ => .ok ⟨"", []⟩) (Json.obj [("messages", Json.arr [])]) =
      (200, Json.obj [("reply", Json.str NewAiChatBot.noResponseText)]) :=
  ⟨by rfl, by rfl, Or.inl (by rfl),
    claim4_placeholder_amended ⟨"", []⟩ [] [] (by rfl) (by rfl) (Or.inl (by rfl))⟩

/-- C5: for every caller message list that normalises without an
exception, the history submitted upstream is the fixed system message
followed by the normalised caller messages in order: length is one more
than the caller's list, position 0 is the system message, and position
i+1 is the normalisation of caller message i. -/
theorem claim5_history_shape (ms : List Json) (us : List NewAiChatBot.Msg)
    (h : NewAiChatBot.mapNormalize ms = .ok us) :
    NewAiChatBot.buildHistory ms = .ok (NewAiChatBot.sysMsg :: us) ∧
    (NewAiChatBot.sysMsg :: us).length = ms.length + 1 ∧
    (NewAiChatBot.sysMsg :: us).get? 0 = some NewAiChatBot.sysMsg ∧
    ∀ (i : Nat) (m : Json), ms.get? i = some m →
      ∃ x, NewAiChatBot.normalizeMsg m = .ok x ∧
        (NewAiChatBot.sysMsg :: us).get? (i + 1) = some x := by
  refine ⟨?_, ?_, rfl, ?_⟩
  · simp [NewAiChatBot.buildHistory, h]
  · simp [mapNormalize_length ms us h]
  · intro i m hm
    obtain ⟨x, hx, hu⟩ := mapNormalize_get ms us h i m hm
    exact ⟨x, hx, by simpa using hu⟩

/-- Witness for C5: a single caller message. -/
theorem claim5_history_shape_witness :
    NewAiChatBot.mapNormalize [Json.obj [("role", Json.str "user"), ("content", Json.str "hi")]] =
      .ok [⟨Json.str "user", Json.str "hi"⟩] ∧
    (NewAiChatBot.buildHistory [Json.obj [("role", Json.str "user"), ("content", Json.str "hi")]] =
      .ok (NewAiChatBot.sysMsg :: [⟨Json.str "user", Json.str "hi"⟩]) ∧
    (NewAiChatBot.sysMsg :: [(⟨Json.str "user", Json.str "hi"⟩ : NewAiChatBot.Msg)]).length =
      [Json.obj [("role", Json.str "user"), ("content", Json.str "hi")]].length + 1 ∧
    (NewAiChatBot.sysMsg :: [(⟨Json.str "user", Json.str "hi"⟩ : NewAiChatBot.Msg)]).get? 0 =
      some NewAiChatBot.sysMsg ∧
    ∀ (i : Nat) (m : Json),
      [Json.obj [("role", Json.str "user"), ("content", Json.str "hi")]].get? i = some m →
      ∃ x, NewAiChatBot.normalizeMsg m = .ok x ∧
        (NewAiChatBot.sysMsg :: [(⟨Json.str "user", Json.str "hi"⟩ : NewAiChatBot.Msg)]).get? (i + 1) =
          some x) :=
  ⟨by rfl,
    claim5_history_shape [Json.obj [("role", Json.str "user"), ("content", Json.str "hi")]]
      [⟨Json.str "user", Json.str "hi"⟩] (by rfl)⟩
